import Mathlib

/-!
Shallow embedding of `src/utils.py` (the email viewer module): the
`EmailViewer` widget navigation logic and the `load_email_files`
catalog builder, together with proofs about their behaviour.

Conventions of the embedding:
* Python `Path` values are modelled by their final component (`name`);
  `stem` is computed exactly as `pathlib` computes it.
* `int(str)` is modelled for ASCII inputs (strip, optional sign, digits
  with single underscores between digits); a parse failure is `none`,
  modelling the `ValueError` that `sort_key` catches.
* The widget object is a record; every handler is a function from the
  old record to the new one.  File reads go through an oracle
  `fs : PyPath → Except String String` (`.ok` = decoded content,
  `.error` = the exception text caught by the handler).
* `random.randint(0, n-1)` raises `ValueError` when `n - 1 < 0`;
  otherwise it returns the PRNG draw, modelled by an oracle `r`.
-/

namespace EmailApp

/-- Model of a `pathlib.Path`: we track the final component (`Path.name`). -/
structure PyPath where
  name : String
deriving DecidableEq

instance : Inhabited PyPath := ⟨⟨""⟩⟩

/-- Python `str.rfind(c)` on a character list: index of the last
occurrence, or `-1` when absent. -/
def rfindChar (cs : List Char) (c : Char) : Int :=
  match (cs.reverse).findIdx? (fun x => x = c) with
  | some r => (cs.length : Int) - 1 - (r : Int)
  | none => -1

/-- `pathlib.PurePath.stem`: with `i = name.rfind('.')`, the stem is
`name[:i]` if `0 < i < len(name) - 1`, else `name` itself. -/
def PyPath.stem (p : PyPath) : String :=
  let cs := p.name.toList
  let i := rfindChar cs '.'
  if 0 < i ∧ i < (cs.length : Int) - 1 then String.mk (cs.take i.toNat) else p.name

/-- Digit part of Python `int(str)`: ASCII digits with single underscores
allowed between digits.  The boolean records whether the previous
character was a digit (so the sequence may neither start nor end with an
underscore, nor contain two in a row). -/
def pyIntDigits : List Char → Nat → Bool → Option Nat
  | [], acc, true => some acc
  | [], _, false => none
  | c :: rest, acc, lastDigit =>
    if c.isDigit then pyIntDigits rest (acc * 10 + (c.toNat - 48)) true
    else if c = '_' then (if lastDigit then pyIntDigits rest acc false else none)
    else none

/-- Python `int(s)` on ASCII input: strip surrounding whitespace, then an
optional sign and a digit sequence.  `none` models `ValueError`. -/
def pyInt (s : String) : Option Int :=
  match (s.trim).toList with
  | '+' :: rest => (pyIntDigits rest 0 false).map (fun n => (n : Int))
  | '-' :: rest => (pyIntDigits rest 0 false).map (fun n => -(n : Int))
  | cs => (pyIntDigits cs 0 false).map (fun n => (n : Int))

/-- `sort_key` from `load_email_files`: the integer value of the filename
stem, or `none` modelling the `float('inf')` sentinel returned when
`int(path.stem)` raises `ValueError`. -/
def sort_key (p : PyPath) : Option Int := pyInt p.stem

/-- The order Python's `sorted` applies to the keys produced by
`sort_key`: integers in their usual order, every integer below `inf`,
and `inf` tied with itself. -/
def keyLe : Option Int → Option Int → Bool
  | some a, some b => a ≤ b
  | some _, none => true
  | none, some _ => false
  | none, none => true

/-- `sorted(files, key=sort_key)` compares whole files through their keys. -/
def fileLe (a b : PyPath) : Bool := keyLe (sort_key a) (sort_key b)

/-- The directory trees visible to `load_email_files`: which directories
exist, and the `*.txt` files recursive globbing discovers under each, in
discovery order. -/
structure FileSystem where
  dirs : List String
  txtFiles : String → List PyPath

/-- `Path(dir).rglob('*.txt')`: pathlib's selector first checks
`is_dir()` on the root and yields an empty iterator when the directory
does not exist, rather than raising. -/
def rglob_txt (fs : FileSystem) (dir : String) : List PyPath :=
  if dir ∈ fs.dirs then fs.txtFiles dir else []

/-- `load_email_files(ham_dir, spam_dir)`: recursive discovery followed by
a stable sort on `sort_key` (Python's `sorted` is stable; `List.mergeSort`
is the stable sort on `fileLe`). -/
def load_email_files (fs : FileSystem) (ham_dir spam_dir : String) :
    List PyPath × List PyPath :=
  ((rglob_txt fs ham_dir).mergeSort fileLe, (rglob_txt fs spam_dir).mergeSort fileLe)

/-- The Python exceptions that can escape a button handler in this
module: only the `ValueError` raised by `random.randint` on an empty
range (everything inside `_load_email_by_index`'s `try` is caught). -/
inductive PyError where
  | valueError
deriving DecidableEq

/-- State of the `EmailViewer` widget object: the two catalogues passed to
`__init__`, the navigation state (`current_mode`, `current_index`), and
the widget surfaces the handlers write to (label, mode button, the two
navigation buttons' `disabled` flags, and the output area as a list of
printed entries). -/
structure EmailViewer where
  ham_files : List PyPath
  spam_files : List PyPath
  current_mode : String
  current_index : Option Int
  info_label : String
  mode_button_description : String
  mode_button_style : String
  prev_button_disabled : Bool
  next_button_disabled : Bool
  output : List String
deriving DecidableEq

/-- The idle label `__init__` and `_toggle_mode` install in ham mode. -/
def hamIdleLabel : String :=
  "<b>Mode: <span style=\x27color:green\x27>HAM</span> | Click the button to load a random email</b>"

/-- The idle label `_toggle_mode` installs in spam mode. -/
def spamIdleLabel : String :=
  "<b>Mode: <span style=\x27color:red\x27>SPAM</span> | Click the button to load a random email</b>"

/-- The `'='*60` separator printed around the email content. -/
def sepLine : String := String.mk (List.replicate 60 '=')

/-- `EmailViewer.__init__(ham_files, spam_files)`. -/
def EmailViewer.init (ham spam : List PyPath) : EmailViewer where
  ham_files := ham
  spam_files := spam
  current_mode := "ham"
  current_index := none
  info_label := hamIdleLabel
  mode_button_description := "Switch to SPAM"
  mode_button_style := "info"
  prev_button_disabled := true
  next_button_disabled := true
  output := []

/-- `_get_current_file_list`. -/
def EmailViewer.get_current_file_list (v : EmailViewer) : List PyPath :=
  if v.current_mode = "ham" then v.ham_files else v.spam_files

/-- `_load_email_by_index(index)`: bounds-checked load of the entry at
`index`.  Out of bounds returns immediately.  In bounds, `current_index`
is assigned before the `try`; the `try` body reads the file, rewrites
the info label, sets the navigation buttons and prints the email, and
its `except Exception` handler prints the error message instead — so on
a read failure only `current_index` and the output area change. -/
def EmailViewer.load_email_by_index (fs : PyPath → Except String String)
    (index : Int) (v : EmailViewer) : EmailViewer :=
  if index < 0 ∨ (v.get_current_file_list.length : Int) ≤ index then v
  else
    let file_path := v.get_current_file_list.getD index.toNat default
    let type_color := if v.current_mode = "ham" then "green" else "red"
    let upper_type := v.current_mode.toUpper
    match fs file_path with
    | Except.ok content =>
      let file_name := file_path.name
      let total := v.get_current_file_list.length
      let displayed := index + 1
      { v with
        current_index := some index
        info_label :=
          s!"<b>Mode: <span style=\x27color:{type_color}\x27>{upper_type}</span> | Email {displayed}/{total} | <code>{file_name}</code></b>"
        prev_button_disabled := index == 0
        next_button_disabled := index == (v.get_current_file_list.length : Int) - 1
        output :=
          [s!"Email Type: {upper_type}",
           s!"File: {file_name} (Index: {displayed}/{total})",
           sepLine, content, sepLine] }
    | Except.error e =>
      { v with
        current_index := some index
        output := [s!"Error reading file: {e}"] }

/-- `_toggle_mode`: the mode-button handler.  Pure state update, no I/O. -/
def EmailViewer.toggle_mode (v : EmailViewer) : EmailViewer :=
  if v.current_mode = "ham" then
    { v with
      current_mode := "spam"
      mode_button_description := "Switch to HAM"
      mode_button_style := "warning"
      info_label := spamIdleLabel
      current_index := none
      prev_button_disabled := true
      next_button_disabled := true }
  else
    { v with
      current_mode := "ham"
      mode_button_description := "Switch to SPAM"
      mode_button_style := "info"
      info_label := hamIdleLabel
      current_index := none
      prev_button_disabled := true
      next_button_disabled := true }

/-- `_load_random_email`: `random.randint(0, n-1)` raises `ValueError`
when `n - 1 < 0` (empty range), otherwise it returns the PRNG draw,
modelled by the oracle `r` (a faithful run satisfies `0 ≤ r ≤ n - 1`).
The result is the widget state after the click paired with the exception
escaping the handler, if any; a raise leaves the object in its pre-call
state because it precedes every assignment. -/
def EmailViewer.load_random_email (fs : PyPath → Except String String)
    (r : Int) (v : EmailViewer) : EmailViewer × Option PyError :=
  if (v.get_current_file_list.length : Int) - 1 < 0 then
    (v, some PyError.valueError)
  else
    (v.load_email_by_index fs r, none)

/-- `_load_previous_email`. -/
def EmailViewer.load_previous_email (fs : PyPath → Except String String)
    (v : EmailViewer) : EmailViewer :=
  match v.current_index with
  | some i => if 0 < i then v.load_email_by_index fs (i - 1) else v
  | none => v

/-- `_load_next_email`. -/
def EmailViewer.load_next_email (fs : PyPath → Except String String)
    (v : EmailViewer) : EmailViewer :=
  match v.current_index with
  | some i =>
    if i < (v.get_current_file_list.length : Int) - 1 then
      v.load_email_by_index fs (i + 1)
    else v
  | none => v

/-- The navigation-state invariant: `current_index`, when present, is a
valid index into the active category's list. -/
def EmailViewer.IndexValid (v : EmailViewer) : Prop :=
  match v.current_index with
  | none => True
  | some i => 0 ≤ i ∧ i < (v.get_current_file_list.length : Int)

instance (v : EmailViewer) : Decidable v.IndexValid :=
  match h : v.current_index with
  | none => Decidable.isTrue (by simp [EmailViewer.IndexValid, h])
  | some i =>
    decidable_of_iff (0 ≤ i ∧ i < (v.get_current_file_list.length : Int))
      (by simp [EmailViewer.IndexValid, h])

/-- Example read oracle: every file reads successfully. -/
def fsReadOk : PyPath → Except String String := fun _ => Except.ok "hello"

/-- Example read oracle: every read raises (e.g. a permission error). -/
def fsReadFail : PyPath → Except String String := fun _ => Except.error "Permission denied"

/-- Example disk: `data/spam` exists and holds one file, `data/ham`
does not exist at all. -/
def exDisk : FileSystem :=
  ⟨["data/spam"], fun d => if d = "data/spam" then [⟨"7.txt"⟩] else []⟩

/-! ### Helper lemmas -/

theorem keyLe_trans (a b c : Option Int) (h1 : keyLe a b = true)
    (h2 : keyLe b c = true) : keyLe a c = true := by
  cases a <;> cases b <;> cases c <;> simp [keyLe] at *
  omega

theorem keyLe_total (a b : Option Int) : keyLe a b || keyLe b a := by
  cases a <;> cases b <;> simp [keyLe]
  omega

theorem fileLe_trans (a b c : PyPath) (h1 : fileLe a b) (h2 : fileLe b c) :
    fileLe a c :=
  keyLe_trans _ _ _ h1 h2

theorem fileLe_total (a b : PyPath) : fileLe a b || fileLe b a :=
  keyLe_total _ _

theorem load_email_by_index_oob (fs : PyPath → Except String String)
    (i : Int) (v : EmailViewer)
    (h : i < 0 ∨ (v.get_current_file_list.length : Int) ≤ i) :
    v.load_email_by_index fs i = v := by
  unfold EmailViewer.load_email_by_index
  rw [if_pos h]

theorem load_email_by_index_preserves (fs : PyPath → Except String String)
    (i : Int) (v : EmailViewer) :
    (v.load_email_by_index fs i).ham_files = v.ham_files ∧
    (v.load_email_by_index fs i).spam_files = v.spam_files ∧
    (v.load_email_by_index fs i).current_mode = v.current_mode ∧
    (v.load_email_by_index fs i).mode_button_description = v.mode_button_description ∧
    (v.load_email_by_index fs i).mode_button_style = v.mode_button_style := by
  simp only [EmailViewer.load_email_by_index]
  split
  · exact ⟨rfl, rfl, rfl, rfl, rfl⟩
  · split
    · exact ⟨rfl, rfl, rfl, rfl, rfl⟩
    · exact ⟨rfl, rfl, rfl, rfl, rfl⟩

theorem load_email_by_index_file_list (fs : PyPath → Except String String)
    (i : Int) (v : EmailViewer) :
    (v.load_email_by_index fs i).get_current_file_list = v.get_current_file_list := by
  obtain ⟨h1, h2, h3, -, -⟩ := load_email_by_index_preserves fs i v
  unfold EmailViewer.get_current_file_list
  rw [h1, h2, h3]

theorem load_email_by_index_in_bounds_index (fs : PyPath → Except String String)
    (i : Int) (v : EmailViewer)
    (h : ¬(i < 0 ∨ (v.get_current_file_list.length : Int) ≤ i)) :
    (v.load_email_by_index fs i).current_index = some i := by
  simp only [EmailViewer.load_email_by_index]
  rw [if_neg h]
  split
  · rfl
  · rfl

theorem load_email_by_index_IndexValid (fs : PyPath → Except String String)
    (i : Int) (v : EmailViewer) (h : v.IndexValid) :
    (v.load_email_by_index fs i).IndexValid := by
  by_cases hb : i < 0 ∨ (v.get_current_file_list.length : Int) ≤ i
  · rw [load_email_by_index_oob fs i v hb]; exact h
  · unfold EmailViewer.IndexValid
    rw [load_email_by_index_in_bounds_index fs i v hb]
    rw [load_email_by_index_file_list fs i v]
    omega

/-! ### Claims -/

/-- C9: for every navigation state and every index with `index < 0` or
`index ≥ n` (`n` the active list's length), `loadAt(index)` is a no-op:
the entire widget state — active category, current index, and all output
metadata (label, buttons, output area) — is returned unchanged, and the
out-of-range condition is an ignored early return, not an exception. -/
theorem load_at_out_of_range_noop (fs : PyPath → Except String String)
    (i : Int) (v : EmailViewer)
    (h : i < 0 ∨ (v.get_current_file_list.length : Int) ≤ i) :
    v.load_email_by_index fs i = v :=
  load_email_by_index_oob fs i v h

theorem load_at_out_of_range_noop_witness :
    (EmailViewer.init [⟨"1.txt"⟩] []).load_email_by_index fsReadOk 5 =
      EmailViewer.init [⟨"1.txt"⟩] [] :=
  load_at_out_of_range_noop fsReadOk 5 (EmailViewer.init [⟨"1.txt"⟩] []) (by decide)

/-- C8: `switchCategory` (`_toggle_mode`) flips the active category
between ham and spam, always resets `current_index` to `none`, performs
no I/O (its type takes no read oracle and it always returns a state —
it cannot fail), and applying it twice restores the original active
category. -/
theorem toggle_mode_flips_and_resets (v : EmailViewer) :
    (v.toggle_mode).current_index = none ∧
    (v.current_mode = "ham" → (v.toggle_mode).current_mode = "spam") ∧
    (v.current_mode = "spam" → (v.toggle_mode).current_mode = "ham") ∧
    ((v.current_mode = "ham" ∨ v.current_mode = "spam") →
      (v.toggle_mode.toggle_mode).current_mode = v.current_mode) := by
  refine ⟨?_, ?_, ?_, ?_⟩
  · by_cases h : v.current_mode = "ham" <;> simp [EmailViewer.toggle_mode, h]
  · intro h
    simp [EmailViewer.toggle_mode, h]
  · intro h
    have hh : ¬ v.current_mode = "ham" := by rw [h]; decide
    simp [EmailViewer.toggle_mode, hh]
  · rintro (h | h)
    · simp [EmailViewer.toggle_mode, h]
    · have hh : ¬ v.current_mode = "ham" := by rw [h]; decide
      simp [EmailViewer.toggle_mode, hh, h]

theorem toggle_mode_flips_and_resets_witness :
    ((EmailViewer.init [] []).toggle_mode).current_index = none ∧
    ((EmailViewer.init [] []).toggle_mode.toggle_mode).current_mode =
      (EmailViewer.init [] []).current_mode :=
  ⟨(toggle_mode_flips_and_resets (EmailViewer.init [] [])).1,
   (toggle_mode_flips_and_resets (EmailViewer.init [] [])).2.2.2 (Or.inl rfl)⟩

/-- C1 (code bug): the claim — and the spec — say `loadRandom` on an
empty active category fails with a reported, recoverable `EmptyCatalog`
error.  The code has no such path: with `n == 0`,
`random.randint(0, n - 1)` is `randint(0, -1)`, which raises
`ValueError` (an uncaught exception escaping the click handler), and no
user-visible message is produced.  This theorem evaluates the model at
the failing input. -/
theorem load_random_on_empty_catalog_raises :
    (EmailViewer.init [] [⟨"2.txt"⟩]).load_random_email fsReadOk 0 =
      (EmailViewer.init [] [⟨"2.txt"⟩], some PyError.valueError) := by
  rfl

/-- C10: when the active category's list is empty, the failed
`loadRandom` leaves the widget state atomically unchanged: the
`ValueError` is raised by `random.randint` during index selection,
before any assignment to mode, index, label, buttons or output. -/
theorem load_random_empty_state_unchanged (fs : PyPath → Except String String)
    (r : Int) (v : EmailViewer) (h : v.get_current_file_list = []) :
    v.load_random_email fs r = (v, some PyError.valueError) := by
  unfold EmailViewer.load_random_email
  rw [h]
  rfl

theorem load_random_empty_state_unchanged_witness :
    (EmailViewer.init [] [⟨"9.txt"⟩]).load_random_email fsReadFail 3 =
      (EmailViewer.init [] [⟨"9.txt"⟩], some PyError.valueError) :=
  load_random_empty_state_unchanged fsReadFail 3 (EmailViewer.init [] [⟨"9.txt"⟩]) rfl

/-- C2 counterexample: on `exDisk` the directory `data/ham` does not
exist, yet `load_email_files` returns successfully, giving that category
an empty sequence — the claimed `DirectoryNotFound` failure does not
happen (`rglob` on a missing directory silently yields nothing). -/
theorem missing_directory_yields_empty_not_error :
    load_email_files exDisk "data/ham" "data/spam" = ([], [⟨"7.txt"⟩]) := by
  unfold load_email_files
  rw [show rglob_txt exDisk "data/ham" = [] from rfl,
      show rglob_txt exDisk "data/spam" = [⟨"7.txt"⟩] from rfl,
      List.mergeSort_nil, List.mergeSort_singleton]

/-- C2 (amended): the catalog build never fails: a directory that does
not exist contributes an empty sequence for its category, exactly like
an existing but empty directory. -/
theorem load_email_files_missing_or_empty_dir (fs : FileSystem)
    (ham_dir spam_dir : String) :
    ((ham_dir ∉ fs.dirs ∨ fs.txtFiles ham_dir = []) →
      (load_email_files fs ham_dir spam_dir).1 = []) ∧
    ((spam_dir ∉ fs.dirs ∨ fs.txtFiles spam_dir = []) →
      (load_email_files fs ham_dir spam_dir).2 = []) := by
  constructor
  · intro h
    have hr : rglob_txt fs ham_dir = [] := by
      unfold rglob_txt
      rcases h with h | h
      · rw [if_neg h]
      · split
        · exact h
        · rfl
    unfold load_email_files
    rw [hr, List.mergeSort_nil]
  · intro h
    have hr : rglob_txt fs spam_dir = [] := by
      unfold rglob_txt
      rcases h with h | h
      · rw [if_neg h]
      · split
        · exact h
        · rfl
    unfold load_email_files
    rw [hr, List.mergeSort_nil]

theorem load_email_files_missing_or_empty_dir_witness :
    (load_email_files exDisk "data/absent" "data/spam").1 = [] :=
  (load_email_files_missing_or_empty_dir exDisk "data/absent" "data/spam").1
    (Or.inl (by decide))

/-- Sortedness of the stable sort used by `load_email_files`. -/
theorem mergeSort_fileLe_pairwise (l : List PyPath) :
    (l.mergeSort fileLe).Pairwise (fun a b => fileLe a b = true) :=
  List.sorted_mergeSort fileLe_trans fileLe_total l

/-- Stability of the sort on the unparsable-stem files: they come out in
exactly the order they were discovered. -/
theorem mergeSort_fileLe_filter_none (l : List PyPath) :
    (l.mergeSort fileLe).filter (fun q => (sort_key q).isNone) =
      l.filter (fun q => (sort_key q).isNone) := by
  set p : PyPath → Bool := fun q => (sort_key q).isNone with hp
  have hpw : (l.filter p).Pairwise (fun a b => fileLe a b = true) := by
    apply List.pairwise_of_forall_mem_list
    intro a ha b hb
    have ha2 : (sort_key a).isNone := (List.mem_filter.mp ha).2
    have hb2 : (sort_key b).isNone := (List.mem_filter.mp hb).2
    unfold fileLe
    rw [Option.isNone_iff_eq_none.mp ha2, Option.isNone_iff_eq_none.mp hb2]
    rfl
  have h2 : List.Sublist (l.filter p) (l.mergeSort fileLe) :=
    List.sublist_mergeSort fileLe_trans fileLe_total hpw (List.filter_sublist l)
  have h3 : List.Sublist ((l.filter p).filter p) ((l.mergeSort fileLe).filter p) :=
    h2.filter p
  have h4 : (l.filter p).filter p = l.filter p :=
    List.filter_eq_self.mpr (fun a ha => (List.mem_filter.mp ha).2)
  rw [h4] at h3
  have h5 : ((l.mergeSort fileLe).filter p).length = (l.filter p).length :=
    ((List.mergeSort_perm l fileLe).filter p).length_eq
  exact (h3.eq_of_length h5.symm).symm

/-- C4: `load_email_files` returns each category's sequence sorted
ascending by the integer parsed from the filename stem; every file whose
stem does not parse as an integer appears after all files with numeric
stems; unparsable files keep their discovery order among themselves; and
the output is a permutation of the discovered files. -/
theorem load_email_files_sorted_stable (fs : FileSystem)
    (ham_dir spam_dir : String) :
    ((load_email_files fs ham_dir spam_dir).1.Pairwise
        (fun a b => ∀ ka kb, sort_key a = some ka → sort_key b = some kb → ka ≤ kb) ∧
      (load_email_files fs ham_dir spam_dir).1.Pairwise
        (fun a b => sort_key a = none → sort_key b = none) ∧
      (load_email_files fs ham_dir spam_dir).1.filter (fun q => (sort_key q).isNone) =
        (rglob_txt fs ham_dir).filter (fun q => (sort_key q).isNone) ∧
      (load_email_files fs ham_dir spam_dir).1.Perm (rglob_txt fs ham_dir)) ∧
    ((load_email_files fs ham_dir spam_dir).2.Pairwise
        (fun a b => ∀ ka kb, sort_key a = some ka → sort_key b = some kb → ka ≤ kb) ∧
      (load_email_files fs ham_dir spam_dir).2.Pairwise
        (fun a b => sort_key a = none → sort_key b = none) ∧
      (load_email_files fs ham_dir spam_dir).2.filter (fun q => (sort_key q).isNone) =
        (rglob_txt fs spam_dir).filter (fun q => (sort_key q).isNone) ∧
      (load_email_files fs ham_dir spam_dir).2.Perm (rglob_txt fs spam_dir)) := by
  have key : ∀ raw : List PyPath,
      (raw.mergeSort fileLe).Pairwise
        (fun a b => ∀ ka kb, sort_key a = some ka → sort_key b = some kb → ka ≤ kb) ∧
      (raw.mergeSort fileLe).Pairwise
        (fun a b => sort_key a = none → sort_key b = none) ∧
      (raw.mergeSort fileLe).filter (fun q => (sort_key q).isNone) =
        raw.filter (fun q => (sort_key q).isNone) ∧
      (raw.mergeSort fileLe).Perm raw := by
    intro raw
    refine ⟨?_, ?_, mergeSort_fileLe_filter_none raw, List.mergeSort_perm raw fileLe⟩
    · refine (mergeSort_fileLe_pairwise raw).imp ?_
      intro a b hle ka kb hka hkb
      unfold fileLe at hle
      rw [hka, hkb] at hle
      simpa [keyLe] using hle
    · refine (mergeSort_fileLe_pairwise raw).imp ?_
      intro a b hle hna
      unfold fileLe at hle
      rw [hna] at hle
      cases hkb : sort_key b with
      | none => rfl
      | some x => rw [hkb] at hle; simp [keyLe] at hle
  exact ⟨key (rglob_txt fs ham_dir), key (rglob_txt fs spam_dir)⟩

/-- C5: for `0 ≤ i < n` (with a successful read), `loadAt(i)` sets
`current_index = i` and produces a result whose position metadata is
`index = i`, `total = n`, the file name of the `i`-th entry of the
sorted list, `has_previous = (i > 0)` (the previous button is enabled
iff `i > 0`) and `has_next = (i < n - 1)`. -/
theorem load_at_in_bounds_success_result (fs : PyPath → Except String String)
    (i : Int) (v : EmailViewer) (content : String)
    (h0 : 0 ≤ i) (h1 : i < (v.get_current_file_list.length : Int))
    (hr : fs (v.get_current_file_list.getD i.toNat default) = Except.ok content) :
    (v.load_email_by_index fs i).current_index = some i ∧
    ((v.load_email_by_index fs i).prev_button_disabled = false ↔ 0 < i) ∧
    ((v.load_email_by_index fs i).next_button_disabled = false ↔
      i < (v.get_current_file_list.length : Int) - 1) ∧
    (v.load_email_by_index fs i).info_label =
      (let type_color := if v.current_mode = "ham" then "green" else "red"
       let upper_type := v.current_mode.toUpper
       let displayed := i + 1
       let total := v.get_current_file_list.length
       let file_name := (v.get_current_file_list.getD i.toNat default).name
       s!"<b>Mode: <span style=\x27color:{type_color}\x27>{upper_type}</span> | Email {displayed}/{total} | <code>{file_name}</code></b>") ∧
    (v.load_email_by_index fs i).output =
      (let upper_type := v.current_mode.toUpper
       let displayed := i + 1
       let total := v.get_current_file_list.length
       let file_name := (v.get_current_file_list.getD i.toNat default).name
       [s!"Email Type: {upper_type}",
        s!"File: {file_name} (Index: {displayed}/{total})",
        sepLine, content, sepLine]) := by
  have hb : ¬(i < 0 ∨ (v.get_current_file_list.length : Int) ≤ i) := by omega
  simp only [EmailViewer.load_email_by_index]
  rw [if_neg hb, hr]
  refine ⟨rfl, ?_, ?_, rfl, rfl⟩
  · show (i == 0) = false ↔ 0 < i
    simp only [beq_eq_false_iff_ne, ne_eq]
    omega
  · show (i == (v.get_current_file_list.length : Int) - 1) = false ↔
      i < (v.get_current_file_list.length : Int) - 1
    simp only [beq_eq_false_iff_ne, ne_eq]
    omega

theorem load_at_in_bounds_success_result_witness :
    ((EmailViewer.init [⟨"1.txt"⟩, ⟨"2.txt"⟩] []).load_email_by_index fsReadOk 0).current_index =
      some 0 :=
  (load_at_in_bounds_success_result fsReadOk 0
    (EmailViewer.init [⟨"1.txt"⟩, ⟨"2.txt"⟩] []) "hello"
    (by decide) (by decide) rfl).1

/-- C3 counterexample: start from the two-email ham catalogue, load
index 0 successfully (previous button disabled), then load index 1
through a failing read.  The claim demands the bounds metadata be
updated exactly as on success — i.e. the previous button enabled
(`has_previous = true`, since `1 > 0`) — but the code leaves the button
states untouched on a read failure: the previous button is still
disabled, while the successful load at the same index enables it. -/
theorem read_failure_leaves_stale_nav_buttons :
    (((EmailViewer.init [⟨"1.txt"⟩, ⟨"2.txt"⟩] []).load_email_by_index fsReadOk 0).load_email_by_index
        fsReadFail 1).current_index = some 1 ∧
    (((EmailViewer.init [⟨"1.txt"⟩, ⟨"2.txt"⟩] []).load_email_by_index fsReadOk 0).load_email_by_index
        fsReadFail 1).prev_button_disabled = true ∧
    (((EmailViewer.init [⟨"1.txt"⟩, ⟨"2.txt"⟩] []).load_email_by_index fsReadOk 0).load_email_by_index
        fsReadOk 1).prev_button_disabled = false := by
  refine ⟨rfl, rfl, rfl⟩

/-- C3 (amended): for an in-bounds index whose read fails, `loadAt(i)`
reports the error description inline in place of the content instead of
propagating a fatal error, and updates `current_index` to `i` (so
navigation away remains possible); but the `has_previous`/`has_next`
bounds metadata and the position label are left at their previous
values, not updated as if the read had succeeded. -/
theorem load_at_read_failure_updates_index_only (fs : PyPath → Except String String)
    (i : Int) (v : EmailViewer) (e : String)
    (h0 : 0 ≤ i) (h1 : i < (v.get_current_file_list.length : Int))
    (hr : fs (v.get_current_file_list.getD i.toNat default) = Except.error e) :
    (v.load_email_by_index fs i).current_index = some i ∧
    (v.load_email_by_index fs i).output = [s!"Error reading file: {e}"] ∧
    (v.load_email_by_index fs i).prev_button_disabled = v.prev_button_disabled ∧
    (v.load_email_by_index fs i).next_button_disabled = v.next_button_disabled ∧
    (v.load_email_by_index fs i).info_label = v.info_label ∧
    (v.load_email_by_index fs i).current_mode = v.current_mode ∧
    (v.load_email_by_index fs i).ham_files = v.ham_files ∧
    (v.load_email_by_index fs i).spam_files = v.spam_files := by
  have hb : ¬(i < 0 ∨ (v.get_current_file_list.length : Int) ≤ i) := by omega
  simp only [EmailViewer.load_email_by_index]
  rw [if_neg hb, hr]
  exact ⟨rfl, rfl, rfl, rfl, rfl, rfl, rfl, rfl⟩

theorem load_at_read_failure_updates_index_only_witness :
    ((EmailViewer.init [⟨"1.txt"⟩, ⟨"2.txt"⟩] []).load_email_by_index fsReadFail 1).current_index =
      some 1 :=
  (load_at_read_failure_updates_index_only fsReadFail 1
    (EmailViewer.init [⟨"1.txt"⟩, ⟨"2.txt"⟩] []) "Permission denied"
    (by decide) (by decide) rfl).1

/-- C6: the initial state satisfies the navigation invariant
(`current_index`, when present, is a valid index into the active
category's list), and every controller operation — switch category,
load at index, load random, load previous, load next — preserves it,
whatever the read oracle does (so even on a failed file read, and even
when `loadRandom` raises, no invalid (index, category) combination is
produced). -/
theorem navigation_index_invariant :
    (∀ ham spam, (EmailViewer.init ham spam).IndexValid) ∧
    (∀ (fs : PyPath → Except String String) (r i : Int) (v : EmailViewer),
      v.IndexValid →
        (v.toggle_mode).IndexValid ∧
        (v.load_email_by_index fs i).IndexValid ∧
        ((v.load_random_email fs r).1).IndexValid ∧
        (v.load_previous_email fs).IndexValid ∧
        (v.load_next_email fs).IndexValid) := by
  constructor
  · intro ham spam
    exact trivial
  · intro fs r i v hv
    refine ⟨?_, load_email_by_index_IndexValid fs i v hv, ?_, ?_, ?_⟩
    · have hnone : (v.toggle_mode).current_index = none := by
        unfold EmailViewer.toggle_mode
        split
        · rfl
        · rfl
      unfold EmailViewer.IndexValid
      rw [hnone]
      exact trivial
    · unfold EmailViewer.load_random_email
      split
      · exact hv
      · exact load_email_by_index_IndexValid fs r v hv
    · unfold EmailViewer.load_previous_email
      split
      · split
        · exact load_email_by_index_IndexValid fs _ v hv
        · exact hv
      · exact hv
    · unfold EmailViewer.load_next_email
      split
      · split
        · exact load_email_by_index_IndexValid fs _ v hv
        · exact hv
      · exact hv

theorem navigation_index_invariant_witness :
    ((EmailViewer.init [⟨"1.txt"⟩] []).toggle_mode).IndexValid :=
  (navigation_index_invariant.2 fsReadOk 0 0 (EmailViewer.init [⟨"1.txt"⟩] [])
    (by decide)).1

/-- C7: `loadPrevious` is a no-op when `current_index` is `none` or `0`,
`loadNext` is a no-op when `current_index` is `none` or `n - 1`;
otherwise they behave exactly as `loadAt(current_index - 1)` resp.
`loadAt(current_index + 1)`.  Both are total functions on the state (the
only code they run is the bounds-checked `loadAt`, whose read errors are
caught), so neither throws. -/
theorem load_prev_next_noop_or_delegate (fs : PyPath → Except String String)
    (v : EmailViewer) :
    (v.current_index = none → v.load_previous_email fs = v ∧ v.load_next_email fs = v) ∧
    (v.current_index = some 0 → v.load_previous_email fs = v) ∧
    (∀ k, v.current_index = some k → k ≠ 0 →
      v.load_previous_email fs = v.load_email_by_index fs (k - 1)) ∧
    (∀ k, v.current_index = some k →
      k = (v.get_current_file_list.length : Int) - 1 → v.load_next_email fs = v) ∧
    (∀ k, v.current_index = some k →
      k ≠ (v.get_current_file_list.length : Int) - 1 →
      v.load_next_email fs = v.load_email_by_index fs (k + 1)) := by
  refine ⟨?_, ?_, ?_, ?_, ?_⟩
  · intro h
    constructor
    · unfold EmailViewer.load_previous_email
      rw [h]
    · unfold EmailViewer.load_next_email
      rw [h]
  · intro h
    unfold EmailViewer.load_previous_email
    rw [h]
    simp
  · intro k h hk
    unfold EmailViewer.load_previous_email
    rw [h]
    show (if 0 < k then EmailViewer.load_email_by_index fs (k - 1) v else v) =
      EmailViewer.load_email_by_index fs (k - 1) v
    by_cases hpos : 0 < k
    · rw [if_pos hpos]
    · rw [if_neg hpos, load_email_by_index_oob fs (k - 1) v (Or.inl (by omega))]
  · intro k h hk
    unfold EmailViewer.load_next_email
    rw [h]
    show (if k < (v.get_current_file_list.length : Int) - 1 then
        EmailViewer.load_email_by_index fs (k + 1) v else v) = v
    rw [if_neg (by omega)]
  · intro k h hk
    unfold EmailViewer.load_next_email
    rw [h]
    show (if k < (v.get_current_file_list.length : Int) - 1 then
        EmailViewer.load_email_by_index fs (k + 1) v else v) =
      EmailViewer.load_email_by_index fs (k + 1) v
    by_cases hlt : k < (v.get_current_file_list.length : Int) - 1
    · rw [if_pos hlt]
    · rw [if_neg hlt, load_email_by_index_oob fs (k + 1) v (Or.inr (by omega))]

theorem load_prev_next_noop_or_delegate_witness :
    ({ EmailViewer.init [⟨"1.txt"⟩, ⟨"2.txt"⟩] [] with
        current_index := some (0 : Int) } : EmailViewer).load_previous_email fsReadOk =
      { EmailViewer.init [⟨"1.txt"⟩, ⟨"2.txt"⟩] [] with current_index := some (0 : Int) } :=
  (load_prev_next_noop_or_delegate fsReadOk
    { EmailViewer.init [⟨"1.txt"⟩, ⟨"2.txt"⟩] [] with current_index := some (0 : Int) }).2.1 rfl

end EmailApp
